import Mathlib

/-!
Shallow embedding of the knowpro-backend paper listing and comments code.

Part 1 embeds `src/routes/paper_query_utils.py` (the MongoDB-based listing
pipeline): the request parsing defaults and enum validation of
`query_parser`, the filter construction, `$facet` pagination and `$count`
semantics of `get_papers`, the comment-count aggregation of
`get_comments_count`, the enrichment of `include_stats`, and the tweet-link
shaping of `TwitterUrl.format`.

Part 2 embeds `src/src/routes/comments.py` (the SQL-based comments routes):
`CommentsResource.get`, `NewCommentResource.post`, `anonymize_user`,
`can_edit` and the `comment_fields` marshalling.

Conventions: MongoDB documents become structures; the store's natural order
becomes list order; Python truthiness of optional strings (`if author:`)
becomes `pyTruthy`; timestamps are integers measured in days, so
`datetime.timedelta(days=n)` is the integer `n`; a Python exception or a
flask `abort` becomes `none` / `Except.error code`.
-/

/-- Python truthiness of an optional string: `None` and `""` are falsy. -/
def pyTruthy (o : Option String) : Bool :=
  (o.getD "") ≠ ""

/-- `SORT_DICT` from paper_query_utils.py line 21. -/
def SORT_DICT : List (String × String) :=
  [("tweets", "twtr_sum"), ("date", "time_published"), ("score", "score"), ("bookmarks", "total_bookmarks")]

/-- `AGE_DICT` from paper_query_utils.py line 22. -/
def AGE_DICT : List (String × Int) :=
  [("day", 1), ("3days", 3), ("week", 7), ("month", 30), ("year", 365), ("all", -1)]

/-- An author subdocument of a paper (`authors.name`). -/
structure Author where
  name : String
deriving DecidableEq, Repr

/-- A tweet reference stored on a paper (`twtr_links` array members):
handle `tname`, tweet id `tid`, like/retweet counts, and an optional
reply count (the source reads it with `obj.get('replies', 0)`). -/
structure Tweet where
  tname : String
  tid : String
  likes : Int
  rt : Int
  replies : Option Int
deriving DecidableEq, Repr

/-- A paper document in the `db_papers` collection, with the fields the
listing pipeline reads: id, title, authors, publication timestamp (in
days), tag terms (`tags.term`), social-engagement aggregate `twtr_sum`,
star count `total_bookmarks`, and tweet references. -/
structure Paper where
  pid : String
  title : String
  authors : List Author
  time_published : Int
  tags : List String
  twtr_sum : Int
  total_bookmarks : Int
  twtr_links : List Tweet
deriving DecidableEq, Repr

/-- A comment document in the `db_comments` collection, with the fields the
count aggregation reads: the paper id `pid` and `visibility.type`. -/
structure CommentDoc where
  cpid : String
  visibilityType : String
deriving DecidableEq, Repr

/-- A group document (`get_group` result): its member paper ids. -/
structure GroupRec where
  papers : List String
deriving DecidableEq, Repr

/-- The backing stores and collaborator lookups `get_papers` reads:
the papers collection in natural order, the comments collection,
`get_group` (modelled from the spec: `papersOf(groupId) -> set of PaperId`;
`group_utils.py` is not among the provided sources, and a missing group
aborts with a NotFoundError per the spec's error taxonomy), and
`get_user_library` (modelled from the spec: `library(userId) -> set of
PaperId`; `user_utils.py` is not among the provided sources). -/
structure Env where
  papers : List Paper
  comments : List CommentDoc
  groups : String → Option GroupRec
  userLibrary : Option String → List String

/-- The parsed query arguments of `query_parser`: `q`, `author`,
`page_num` (default 1), `sort`, `age` (default "week"), `categories`,
`group`. -/
structure QueryArgs where
  q : Option String
  author : Option String
  page_num : Int
  sort : Option String
  age : String
  categories : Option String
  group : Option String
deriving DecidableEq, Repr

/-- The `filters` dict built by `get_papers` lines 99-118, one field per
dict key it may hold: `authors.name`, `_id` (`$in`), `time_published`
(`$gt`), `tags.term` (`$in`). -/
structure Filters where
  authorsName : Option String
  idIn : Option (List String)
  timePublishedGt : Option Int
  tagsTermIn : Option (List String)
deriving DecidableEq, Repr

/-- Build the `filters` dict exactly as `get_papers` lines 99-118 does:
author            → `filters['authors.name'] = author`;
library           → `filters['_id'] = {'$in': user_library}`;
age ≠ "all"       → `filters['time_published'] = {'$gt': now - days(AGE_DICT[age])}`;
categories        → `filters['tags.term'] = {'$in': categories.split(';')}`;
group_id          → `filters['_id'] = {'$in': group_papers}` (this assignment
OVERWRITES the `_id` key the library branch may have set). A missing group
makes `get_group` abort, modelled as `none`. -/
def build_filters (env : Env) (library : Bool) (current_user : Option String)
    (args : QueryArgs) (now : Int) : Option Filters :=
  let f0 : Filters := { authorsName := none, idIn := none, timePublishedGt := none, tagsTermIn := none }
  let f1 := if pyTruthy args.author then { f0 with authorsName := args.author } else f0
  let f2 := if library then { f1 with idIn := some (env.userLibrary current_user) } else f1
  let f3 := if args.age ≠ "all" then
      { f2 with timePublishedGt := some (now - ((AGE_DICT.lookup args.age).getD 0)) } else f2
  let f4 := if pyTruthy args.categories then
      { f3 with tagsTermIn := some ((args.categories.getD "").splitOn ";") } else f3
  if pyTruthy args.group then
    match env.groups (args.group.getD "") with
    | none => none
    | some g => some { f4 with idIn := some g.papers }
  else some f4

/-- Whether a paper document matches the compiled `filters` dict under
MongoDB `$match` semantics: `authors.name: a` matches when any array member
has that name; `_id: {$in: l}` when the id is in the list; `time_published:
{$gt: t}` strictly; `tags.term: {$in: l}` when any tag term is in the list. -/
def matches_filters (f : Filters) (p : Paper) : Bool :=
  (match f.authorsName with
   | none => true
   | some a => p.authors.any (fun au => au.name = a)) &&
  (match f.idIn with
   | none => true
   | some ids => ids.contains p.pid) &&
  (match f.timePublishedGt with
   | none => true
   | some t => t < p.time_published) &&
  (match f.tagsTermIn with
   | none => true
   | some ts => p.tags.any (fun tg => ts.contains tg))

/-- The `get_comments_count` aggregation (lines 158-178): `$match` keeps
comments with `visibility.type` in {public, anonymous}; `$group` by `pid`
with `$sum: 1` emits one `(pid, count)` document per distinct pid of the
matched comments; the Python loop then loads them into a dict, here an
association list with those same distinct keys. -/
def get_comments_count (comments : List CommentDoc) : List (String × Int) :=
  let filtered := comments.filter (fun c => ["public", "anonymous"].contains c.visibilityType)
  ((filtered.map (fun c => c.cpid)).dedup).map
    (fun pid => (pid, ((filtered.filter (fun c => c.cpid = pid)).length : Int)))

/-- A paper record after `include_stats` set `comments_count` and
`saved_in_library` on it. -/
structure EnrichedPaper where
  paper : Paper
  comments_count : Int
  saved_in_library : Bool
deriving DecidableEq, Repr

/-- `include_stats` (lines 188-206): fetches the comment counts, resolves
the library (`if not library:` refetches on `None` and on an empty list,
Python truthiness), and sets on every paper `comments_count =
papers_comments.get(paper_id, 0)` and `saved_in_library = paper_id in
library`. The `get_paper_groups` call at line 198 computes `groups` but the
loop never attaches it to any paper, so it is omitted here. Order and the
underlying paper fields are preserved. -/
def include_stats (env : Env) (papers : List Paper) (library : Option (List String))
    (user : Option String) : List EnrichedPaper :=
  let papers_comments := get_comments_count env.comments
  let lib := match library with
    | some l => if l.isEmpty then env.userLibrary user else l
    | none => env.userLibrary user
  papers.map (fun p =>
    { paper := p,
      comments_count := ((papers_comments.lookup p.pid).getD 0),
      saved_in_library := lib.contains p.pid })

/-- The `{papers, count}` payload `get_papers` returns. -/
structure PapersResponse where
  papers : List EnrichedPaper
  count : Int
deriving DecidableEq, Repr

/-- The body of `get_papers` after argument validation (lines 96-155).
The aggregation pipeline is `$match` → `$lookup` → `$facet`; `$lookup`
only attaches a `group` array to each document and neither drops,
duplicates nor reorders documents, so it is order- and count-transparent
here. The `papers` facet is `$skip: page_size*(page_num-1)` then `$limit:
page_size` (a negative skip makes the server reject the pipeline, modelled
as `none`). The `count` facet is added only when `page_num == 1`; MongoDB's
`$count` over zero input documents emits no document, so
`results['count'][0]` raises IndexError on an empty match, modelled as
`none`. NOTE: the `sort_papers` call at line 146 is commented out in the
source and the pipeline has no `$sort` stage, so documents keep the store's
natural order. The text-search branch (`if q:`) runs `db_papers.find` and
then executes `list(results)[0]` / `results.get('papers')` on plain paper
documents, which always raises before returning, modelled as `none`. -/
def get_papers_core (env : Env) (library : Bool) (current_user : Option String)
    (args : QueryArgs) (now : Int) (page_size : Int) : Option PapersResponse :=
  match build_filters env library current_user args now with
  | none => none
  | some f =>
    if pyTruthy args.q then none
    else if page_size * (args.page_num - 1) < 0 then none
    else if args.page_num = 1 then
      if (env.papers.filter (fun p => matches_filters f p)).isEmpty then none
      else some
        { papers := include_stats env
            (((env.papers.filter (fun p => matches_filters f p)).drop
                (page_size * (args.page_num - 1)).toNat).take page_size.toNat)
            none current_user,
          count := ((env.papers.filter (fun p => matches_filters f p)).length : Int) }
    else some
      { papers := include_stats env
          (((env.papers.filter (fun p => matches_filters f p)).drop
              (page_size * (args.page_num - 1)).toNat).take page_size.toNat)
          none current_user,
        count := -1 }

/-- `get_papers` (lines 84-155) with the `query_parser` enum validation in
front: `age` must be a key of `AGE_DICT` and `sort`, when supplied, a key
of `SORT_DICT` (`choices=` in `query_parser`, a violation is a 400
validation error, modelled as `none`). `now` stands for
`datetime.datetime.now()`. -/
def get_papers (env : Env) (library : Bool) (current_user : Option String)
    (args : QueryArgs) (now : Int) (page_size : Int) : Option PapersResponse :=
  match AGE_DICT.lookup args.age with
  | none => none
  | some _ =>
    match args.sort with
    | some s =>
      match SORT_DICT.lookup s with
      | none => none
      | some _ => get_papers_core env library current_user args now page_size
    | none => get_papers_core env library current_user args now page_size

/-- A shaped entry of the `twtr_links` response field. -/
structure TwtrLink where
  link : String
  name : String
  score : Int
deriving DecidableEq, Repr

/-- `TwitterUrl.format` (lines 34-41): the loop builds, per tweet object,
`link = 'https://twitter.com/' + tname + '/status/' + tid` and
`score = likes + 2*rt + 4*obj.get('replies', 0)`. -/
def twitter_url_format (objs : List Tweet) : List TwtrLink :=
  objs.foldl (fun links obj =>
    links ++ [{ link := "https://twitter.com/" ++ obj.tname ++ "/status/" ++ obj.tid,
                name := obj.tname,
                score := obj.likes + 2 * obj.rt + 4 * (obj.replies.getD 0) }]) []

/-- A user row of the SQL `User` model, with the fields the comments routes
read: id, email, username, first and last name. The models module is not
among the provided sources; the fields are those the routes access. -/
structure SqlUser where
  uid : Nat
  email : String
  username : String
  first_name : String
  last_name : String
deriving DecidableEq, Repr

/-- A reply row of the SQL `Reply` model with the fields `replies_fields`
marshals: id, text, its (nullable) user, and creation date. -/
structure SqlReply where
  rid : String
  text : String
  user : Option SqlUser
  creation_date : Int
deriving DecidableEq, Repr

/-- A comment row of the SQL `Comment` model, with the fields
`src/src/routes/comments.py` reads and writes: text, optional highlighted
text and position payload, `is_general`, visibility `shared_with`,
`collection_id`, owning `user_id` and (resolved) `user`, paper id, creation
date, and replies. The position payload is an opaque dict; only its
presence matters here. -/
structure SqlComment where
  cid : String
  text : Option String
  highlighted_text : Option String
  position : Option String
  is_general : Bool
  shared_with : String
  collection_id : Option String
  user_id : Option Nat
  user : Option SqlUser
  paper_id : String
  creation_date : Int
  replies : List SqlReply
deriving DecidableEq, Repr

/-- Modelled from the spec: `PUBLIC_TYPES` is imported from the SQL-variant
`paper_query_utils.py`, which is not among the provided sources; the spec
describes the public visibility set as comments "with visibility in
{public, anonymous}" (and the Mongo-variant aggregation at
`src/routes/paper_query_utils.py` line 163 uses the same two values). -/
def PUBLIC_TYPES : List String := ["public", "anonymous"]

/-- The collaborators of the SQL comments routes: the papers table (only
existence is read, via `get_or_404`), the collections table (`Collection`
ids), and `enforce_permissions_to_paper`. The permission check is modelled
from the spec: `permissions_utils.py` is not among the provided sources;
the spec's error taxonomy says a denied action is an AuthorizationError,
modelled as a 403 abort when `permitted` is false. -/
structure SqlEnv where
  paperExists : String → Bool
  collections : String → Option String
  permitted : String → Option SqlUser → Bool

/-- `anonymize_user` (comments.py lines 26-30): the empty string when the
comment's visibility is anonymous or the owning user is absent, else the
requested attribute of the owner. -/
def anonymize_user (c : SqlComment) (attr : SqlUser → String) : String :=
  if c.shared_with = "anonymous" then ""
  else
    match c.user with
    | none => ""
    | some u => attr u

/-- `can_edit` (comments.py lines 33-37): false for an anonymous caller,
else whether the comment has an owner whose email is the caller's. -/
def can_edit (current_user : Option String) (c : SqlComment) : Bool :=
  match current_user with
  | none => false
  | some e =>
    match c.user with
    | none => false
    | some u => u.email == e

/-- A marshalled reply, per `replies_fields` (lines 45-52): the user name
fields traverse `user.username` etc. and are null when the user is absent. -/
structure ShapedReply where
  rid : String
  user : Option String
  first_name : Option String
  last_name : Option String
  text : String
  createdAt : Int
deriving DecidableEq, Repr

/-- A marshalled comment, per `comment_fields` (lines 54-67). -/
structure ShapedComment where
  cid : String
  text : Option String
  highlighted_text : Option String
  position : Option String
  username : String
  first_name : String
  last_name : String
  canEdit : Bool
  createdAt : Int
  replies : List ShapedReply
  visibility_type : String
  visibility_id : Option String
  isGeneral : Bool
deriving DecidableEq, Repr

/-- Marshal one reply per `replies_fields`. -/
def shape_reply (r : SqlReply) : ShapedReply :=
  { rid := r.rid,
    user := r.user.map (fun u => u.username),
    first_name := r.user.map (fun u => u.first_name),
    last_name := r.user.map (fun u => u.last_name),
    text := r.text,
    createdAt := r.creation_date }

/-- Marshal one comment per `comment_fields` (lines 54-67): the three name
fields go through `anonymize_user`, `canEdit` through `can_edit` with the
caller's email, `visibility` exposes `shared_with` and `collection_id`,
`isGeneral` exposes `is_general`. -/
def shape_comment (current_user : Option String) (c : SqlComment) : ShapedComment :=
  { cid := c.cid,
    text := c.text,
    highlighted_text := c.highlighted_text,
    position := c.position,
    username := anonymize_user c (fun u => u.username),
    first_name := anonymize_user c (fun u => u.first_name),
    last_name := anonymize_user c (fun u => u.last_name),
    canEdit := can_edit current_user c,
    createdAt := c.creation_date,
    replies := c.replies.map shape_reply,
    visibility_type := c.shared_with,
    visibility_id := c.collection_id,
    isGeneral := c.is_general }

/-- `CommentsResource.get` (comments.py lines 83-100): 404 on a missing
paper, permission enforcement, then the comment query: always filtered by
paper id; with a (truthy) `group` argument filtered by `collection_id`;
otherwise an authenticated caller gets comments that are public-typed or
their own (`or_(Comment.shared_with.in_(PUBLIC_TYPES), Comment.user_id ==
user.id)`), an anonymous caller only public-typed ones. -/
def comments_get (env : SqlEnv) (comments : List SqlComment) (paper_id : String)
    (group_id : Option String) (user : Option SqlUser) : Except Int (List SqlComment) :=
  if env.paperExists paper_id then
    if env.permitted paper_id user then
      if pyTruthy group_id then
        Except.ok ((comments.filter (fun c => c.paper_id = paper_id)).filter
          (fun c => c.collection_id = some (group_id.getD "")))
      else
        match user with
        | some u =>
          Except.ok ((comments.filter (fun c => c.paper_id = paper_id)).filter
            (fun c => PUBLIC_TYPES.contains c.shared_with || c.user_id = some u.uid))
        | none =>
          Except.ok ((comments.filter (fun c => c.paper_id = paper_id)).filter
            (fun c => PUBLIC_TYPES.contains c.shared_with))
    else Except.error 403
  else Except.error 404

/-- The visibility object of a new-comment request (`{type, id}`). -/
structure Visibility where
  vtype : String
  vid : Option String
deriving DecidableEq, Repr

/-- `visibilityObj` (comments.py lines 70-77): the type must be one of
public/private/anonymous/group, and a group visibility must carry a
(truthy) id; otherwise the parser raises and reqparse rejects with 400. -/
def visibility_valid (v : Visibility) : Bool :=
  ["public", "private", "anonymous", "group"].contains v.vtype &&
  (if v.vtype = "group" then pyTruthy v.vid else true)

/-- The JSON body of a new-comment request as `new_comment_parser` parses
it: optional text, highlighted text, position and isGeneral, and the
required visibility object (`none` means the key was absent, a 400). -/
structure NewCommentRequest where
  text : Option String
  highlighted_text : Option String
  position : Option String
  isGeneral : Option Bool
  visibility : Option Visibility
deriving DecidableEq, Repr

/-- The `Comment` row `NewCommentResource.post` constructs and stores
(lines 154-155). -/
structure StoredComment where
  highlighted_text : Option String
  text : Option String
  paper_id : String
  is_general : Bool
  shared_with : String
  user_id : Nat
  position : Option String
  collection_id : Option String
deriving DecidableEq, Repr

/-- `NewCommentResource.post` (comments.py lines 120-161): reqparse
validation of the required `visibility` (400 on absence or on a
`visibilityObj` violation); `is_general = data['isGeneral'] is not None`;
401 when a non-general comment lacks position or highlighted text; a
general comment has its position and highlighted text nulled (the `else`
branch only deletes the unused `isGeneral` key); 401 for a non-public
visibility without a JWT identity; `get_or_404` of the collection for a
group visibility and of the paper; permission enforcement (modelled from
the spec as a 403, as in `comments_get`); then the stored row. -/
def new_comment_post (env : SqlEnv) (jwt : Option String) (user : SqlUser)
    (paper_id : String) (req : NewCommentRequest) : Except Int StoredComment :=
  match req.visibility with
  | none => Except.error 400
  | some vis =>
    if visibility_valid vis then
      if !req.isGeneral.isSome && (req.position.isNone || req.highlighted_text.isNone) then
        Except.error 401
      else if vis.vtype != "public" && jwt.isNone then Except.error 401
      else
        match (if vis.vtype = "group" then
                 match env.collections (vis.vid.getD "") with
                 | none => Except.error 404
                 | some c => Except.ok (some c)
               else Except.ok none : Except Int (Option String)) with
        | Except.error e => Except.error e
        | Except.ok collection_id =>
          if env.paperExists paper_id then
            if env.permitted paper_id (some user) then
              Except.ok
                { highlighted_text := if req.isGeneral.isSome then none else req.highlighted_text,
                  text := req.text,
                  paper_id := paper_id,
                  is_general := req.isGeneral.isSome,
                  shared_with := vis.vtype,
                  user_id := user.uid,
                  position := if req.isGeneral.isSome then none else req.position,
                  collection_id := collection_id }
            else Except.error 403
          else Except.error 404
    else Except.error 400

/-- A paper literal with only id, timestamp and star count set. -/
def mkPaper (pid : String) (tp : Int) (bm : Int) : Paper :=
  { pid := pid, title := "", authors := [], time_published := tp, tags := [],
    twtr_sum := 0, total_bookmarks := bm, twtr_links := [] }

/-- A store of three papers with star counts 5, 1, 3 in natural order. -/
def envStars : Env :=
  { papers := [mkPaper "p5" 0 5, mkPaper "p1" 0 1, mkPaper "p3" 0 3],
    comments := [],
    groups := fun _ => none,
    userLibrary := fun _ => [] }

/-- The listing request sort=bookmarks, age=all, page 1. -/
def argsBookmarks : QueryArgs :=
  { q := none, author := none, page_num := 1, sort := some "bookmarks",
    age := "all", categories := none, group := none }

/-- What `get_papers` returns over `envStars` for `argsBookmarks`. -/
def respStars : PapersResponse :=
  { papers := [{ paper := mkPaper "p5" 0 5, comments_count := 0, saved_in_library := false },
               { paper := mkPaper "p1" 0 1, comments_count := 0, saved_in_library := false },
               { paper := mkPaper "p3" 0 3, comments_count := 0, saved_in_library := false }],
    count := 3 }

/-- A store with one group g1 = \x7b pG \x7d, the paper pG, and a user
library that does not contain pG. -/
def envGroup : Env :=
  { papers := [mkPaper "pG" 0 0],
    comments := [],
    groups := fun g => if g = "g1" then some { papers := ["pG"] } else none,
    userLibrary := fun _ => ["other"] }

/-- The listing request group=g1, age=all, page 1. -/
def argsGroup : QueryArgs :=
  { q := none, author := none, page_num := 1, sort := none, age := "all",
    categories := none, group := some "g1" }

/-- The filter `get_papers` compiles over `envGroup` for `argsGroup` with
library=true: the `_id` filter holds the group's papers, not the library. -/
def fGroup : Filters :=
  { authorsName := none, idIn := some ["pG"], timePublishedGt := none, tagsTermIn := none }

/-- The enriched pG record. -/
def pGEnriched : EnrichedPaper :=
  { paper := mkPaper "pG" 0 0, comments_count := 0, saved_in_library := false }

/-- What `get_papers` returns over `envGroup` for `argsGroup`. -/
def respGroup : PapersResponse :=
  { papers := [pGEnriched], count := 1 }

/-- A store with one paper published at time 8 (for the age-window check
with now=10 and a week window). -/
def envAge : Env :=
  { papers := [mkPaper "pT" 8 0],
    comments := [],
    groups := fun _ => none,
    userLibrary := fun _ => [] }

/-- The listing request age=week (the parser default), page 1. -/
def argsAge : QueryArgs :=
  { q := none, author := none, page_num := 1, sort := none, age := "week",
    categories := none, group := none }

/-- The enriched pT record. -/
def pTEnriched : EnrichedPaper :=
  { paper := mkPaper "pT" 8 0, comments_count := 0, saved_in_library := false }

/-- What `get_papers` returns over `envAge` for `argsAge` at now=10. -/
def respAge : PapersResponse :=
  { papers := [pTEnriched], count := 1 }

/-- The empty compiled filter (age=all, nothing else requested). -/
def fAll : Filters :=
  { authorsName := none, idIn := none, timePublishedGt := none, tagsTermIn := none }

/-- A store whose comments collection holds, for paper x: one public and
one private comment; and one public comment for paper y. -/
def envC5 : Env :=
  { papers := [mkPaper "x" 0 0],
    comments := [{ cpid := "x", visibilityType := "public" },
                 { cpid := "x", visibilityType := "private" },
                 { cpid := "y", visibilityType := "public" }],
    groups := fun _ => none,
    userLibrary := fun _ => [] }

/-- The enriched x record: one counted comment (the private one excluded). -/
def pC5 : EnrichedPaper :=
  { paper := mkPaper "x" 0 0, comments_count := 1, saved_in_library := false }

/-- A SQL collaborator environment where every paper exists, every access
is permitted, and no collection exists. -/
def sqlEnvAll : SqlEnv :=
  { paperExists := fun _ => true, collections := fun _ => none, permitted := fun _ _ => true }

/-- A concrete authenticated user. -/
def userU : SqlUser :=
  { uid := 7, email := "u@example.org", username := "uu", first_name := "U", last_name := "X" }

/-- A non-general new-comment request missing position and highlighted text. -/
def reqNonGeneralMissing : NewCommentRequest :=
  { text := some "t", highlighted_text := none, position := none, isGeneral := none,
    visibility := some { vtype := "public", vid := none } }

/-- A new-comment request with isGeneral explicitly false, carrying a
position and highlighted text. -/
def reqGeneralFalse : NewCommentRequest :=
  { text := some "t", highlighted_text := some "h", position := some "p",
    isGeneral := some false,
    visibility := some { vtype := "public", vid := none } }

/-- The row `new_comment_post` stores for `reqGeneralFalse`: general, with
nulled position and highlighted text. -/
def storedGeneralFalse : StoredComment :=
  { highlighted_text := none, text := some "t", paper_id := "pp", is_general := true,
    shared_with := "public", user_id := 7, position := none, collection_id := none }

/-- A public comment on paper pp owned by user 9. -/
def cPub : SqlComment :=
  { cid := "1", text := some "a", highlighted_text := none, position := none,
    is_general := true, shared_with := "public", collection_id := none,
    user_id := some 9, user := none, paper_id := "pp", creation_date := 0, replies := [] }

/-- A private comment on paper pp owned by user 9 (not the caller). -/
def cPrivOther : SqlComment :=
  { cid := "2", text := some "b", highlighted_text := none, position := none,
    is_general := true, shared_with := "private", collection_id := none,
    user_id := some 9, user := none, paper_id := "pp", creation_date := 0, replies := [] }

/-- A private comment on paper pp owned by the caller (user 7). -/
def cPrivMine : SqlComment :=
  { cid := "3", text := some "c", highlighted_text := none, position := none,
    is_general := true, shared_with := "private", collection_id := none,
    user_id := some 7, user := none, paper_id := "pp", creation_date := 0, replies := [] }

/-- The comments table for the C9 instance. -/
def commentsC9 : List SqlComment := [cPub, cPrivOther, cPrivMine]

/-- What `comments_get` returns for user 7 over `commentsC9` with no group. -/
def resC9 : List SqlComment := [cPub, cPrivMine]

/-- Two identities that differ only in their name fields. -/
def uNameA : SqlUser :=
  { uid := 7, email := "u@example.org", username := "alice", first_name := "Alice", last_name := "A" }

/-- See `uNameA`. -/
def uNameB : SqlUser :=
  { uid := 7, email := "u@example.org", username := "bob", first_name := "Bob", last_name := "B" }

/-- An anonymous comment with an owner and one reply. -/
def cAnon : SqlComment :=
  { cid := "9", text := some "z", highlighted_text := none, position := none,
    is_general := true, shared_with := "anonymous", collection_id := none,
    user_id := some 7, user := some uNameA, paper_id := "pp", creation_date := 0,
    replies := [{ rid := "r1", text := "re", user := none, creation_date := 1 }] }

theorem lookup_map_of_mem (keys : List String) (f : String → Int) (pid : String)
    (h : pid ∈ keys) :
    List.lookup pid (keys.map (fun k => (k, f k))) = some (f pid) := by
  induction keys with
  | nil => cases h
  | cons k ks ih =>
    by_cases hk : pid = k
    · subst hk; simp [List.lookup]
    · have hb : (pid == k) = false := beq_eq_false_iff_ne.mpr hk
      simp only [List.mem_cons] at h
      rcases h with h | h
      · exact absurd h hk
      · simp [List.lookup, hb, ih h]

theorem lookup_map_of_not_mem (keys : List String) (f : String → Int) (pid : String)
    (h : pid ∉ keys) :
    List.lookup pid (keys.map (fun k => (k, f k))) = none := by
  induction keys with
  | nil => rfl
  | cons k ks ih =>
    simp only [List.mem_cons, not_or] at h
    have hb : (pid == k) = false := beq_eq_false_iff_ne.mpr h.1
    simp [List.lookup, hb, ih h.2]

theorem get_comments_count_lookup (comments : List CommentDoc) (pid : String) :
    ((get_comments_count comments).lookup pid).getD 0 =
      ((comments.filter
        (fun c => c.cpid = pid && ["public", "anonymous"].contains c.visibilityType)).length : Int) := by
  unfold get_comments_count
  by_cases hm : pid ∈ ((comments.filter
      (fun c => ["public", "anonymous"].contains c.visibilityType)).map (fun c => c.cpid))
  · rw [lookup_map_of_mem _ _ _ (List.mem_dedup.mpr hm)]
    simp only [Option.getD_some]
    rw [List.filter_filter]
  · rw [lookup_map_of_not_mem _ _ _ (fun h => hm (List.mem_dedup.mp h))]
    simp only [Option.getD_none]
    have hempty : comments.filter
        (fun c => c.cpid = pid && ["public", "anonymous"].contains c.visibilityType) = [] := by
      rw [List.filter_eq_nil_iff]
      intro c hc hpc
      simp only [Bool.and_eq_true, decide_eq_true_eq] at hpc
      exact hm (List.mem_map.mpr ⟨c, List.mem_filter.mpr ⟨hc, hpc.2⟩, hpc.1⟩)
    rw [hempty]
    rfl

theorem mem_include_stats (env : Env) (papers : List Paper) (lib : Option (List String))
    (user : Option String) (p : EnrichedPaper) (h : p ∈ include_stats env papers lib user) :
    p.paper ∈ papers ∧
      p.comments_count = ((get_comments_count env.comments).lookup p.paper.pid).getD 0 := by
  unfold include_stats at h
  simp only [List.mem_map] at h
  obtain ⟨q, hq, rfl⟩ := h
  exact ⟨hq, rfl⟩

/-- C5: every paper listed through `include_stats` carries a
`comments_count` equal to the exact number of comments attached to that
paper whose visibility type is public or anonymous; a paper with no such
comment gets the integer 0 (the field is total), never a missing value. -/
theorem c5_comments_count_exact (env : Env) (papers : List Paper) (lib : Option (List String))
    (user : Option String) (p : EnrichedPaper) (h : p ∈ include_stats env papers lib user) :
    p.comments_count = ((env.comments.filter
      (fun c => c.cpid = p.paper.pid && ["public", "anonymous"].contains c.visibilityType)).length : Int) := by
  rcases mem_include_stats env papers lib user p h with ⟨-, hc⟩
  rw [hc, get_comments_count_lookup]

theorem c5_comments_count_exact_witness :
    pC5.comments_count = ((envC5.comments.filter
      (fun c => c.cpid = pC5.paper.pid && ["public", "anonymous"].contains c.visibilityType)).length : Int) :=
  c5_comments_count_exact envC5 [mkPaper "x" 0 0] none none pC5 (by decide)

theorem foldl_append_singleton_eq_map {α β : Type} (f : α → β) (l : List α) (acc : List β) :
    l.foldl (fun links obj => links ++ [f obj]) acc = acc ++ l.map f := by
  induction l generalizing acc with
  | nil => simp
  | cons a t ih => simp [List.foldl_cons, ih]

/-- C6: each shaped `twtr_links` entry carries
`link = https://twitter.com/handle/status/tweet_id` and
`score = likes + 2*retweets + 4*replies`; in particular likes=10,
retweets=2, replies=1 yields score 18. -/
theorem c6_twtr_link_shape :
    (∀ objs : List Tweet, twitter_url_format objs = objs.map (fun o =>
      { link := "https://twitter.com/" ++ o.tname ++ "/status/" ++ o.tid,
        name := o.tname,
        score := o.likes + 2 * o.rt + 4 * (o.replies.getD 0) })) ∧
    twitter_url_format [{ tname := "h", tid := "1", likes := 10, rt := 2, replies := some 1 }] =
      [{ link := "https://twitter.com/h/status/1", name := "h", score := 18 }] := by
  have hmap : ∀ objs : List Tweet, twitter_url_format objs = objs.map (fun o =>
      { link := "https://twitter.com/" ++ o.tname ++ "/status/" ++ o.tid,
        name := o.tname,
        score := o.likes + 2 * o.rt + 4 * (o.replies.getD 0) }) := by
    intro objs
    unfold twitter_url_format
    rw [foldl_append_singleton_eq_map]
    rfl
  refine ⟨hmap, ?_⟩
  rw [hmap]
  rfl

theorem get_papers_eq_core (env : Env) (lib : Bool) (cu : Option String) (args : QueryArgs)
    (now : Int) (psz : Int) (r : PapersResponse)
    (h : get_papers env lib cu args now psz = some r) :
    get_papers_core env lib cu args now psz = some r := by
  unfold get_papers at h
  split at h
  · simp at h
  · split at h
    · split at h
      · simp at h
      · exact h
    · exact h

theorem get_papers_core_spec (env : Env) (lib : Bool) (cu : Option String) (args : QueryArgs)
    (now : Int) (psz : Int) (r : PapersResponse)
    (h : get_papers_core env lib cu args now psz = some r) :
    ∃ f, build_filters env lib cu args now = some f ∧
      r.papers = include_stats env
        (((env.papers.filter (fun p => matches_filters f p)).drop
            (psz * (args.page_num - 1)).toNat).take psz.toNat)
        none cu ∧
      ((args.page_num = 1 ∧
          r.count = ((env.papers.filter (fun p => matches_filters f p)).length : Int)) ∨
       (args.page_num ≠ 1 ∧ r.count = -1)) := by
  unfold get_papers_core at h
  split at h
  · simp at h
  · rename_i f hf
    refine ⟨f, hf, ?_⟩
    split at h
    · simp at h
    · split at h
      · simp at h
      · split at h
        · rename_i hp
          split at h
          · simp at h
          · have hr := Option.some.inj h
            rw [← hr]
            exact ⟨rfl, Or.inl ⟨hp, rfl⟩⟩
        · rename_i hp
          have hr := Option.some.inj h
          rw [← hr]
          exact ⟨rfl, Or.inr ⟨hp, rfl⟩⟩

theorem build_filters_group (env : Env) (lib : Bool) (cu : Option String) (args : QueryArgs)
    (now : Int) (f : Filters) (g : GroupRec)
    (hg : pyTruthy args.group = true)
    (henv : env.groups (args.group.getD "") = some g)
    (h : build_filters env lib cu args now = some f) :
    f.idIn = some g.papers := by
  unfold build_filters at h
  simp only [hg, if_true, henv] at h
  have hx := Option.some.inj h
  subst hx
  rfl

theorem build_filters_time (env : Env) (lib : Bool) (cu : Option String) (args : QueryArgs)
    (now : Int) (f : Filters)
    (ha : args.age ≠ "all")
    (h : build_filters env lib cu args now = some f) :
    f.timePublishedGt = some (now - (AGE_DICT.lookup args.age).getD 0) := by
  unfold build_filters at h
  by_cases hg : pyTruthy args.group = true
  · simp only [hg, if_true] at h
    split at h
    · simp at h
    · have hx := Option.some.inj h
      subst hx
      by_cases h1 : pyTruthy args.author = true <;> by_cases h2 : lib = true <;>
        by_cases h3 : pyTruthy args.categories = true <;>
        simp [h1, h2, h3, ha]
  · rw [if_neg (by simp [hg])] at h
    have hx := Option.some.inj h
    subst hx
    by_cases h1 : pyTruthy args.author = true <;> by_cases h2 : lib = true <;>
      by_cases h3 : pyTruthy args.categories = true <;>
      simp [h1, h2, h3, ha]

theorem build_filters_time_all (env : Env) (lib : Bool) (cu : Option String) (args : QueryArgs)
    (now : Int) (f : Filters)
    (ha : args.age = "all")
    (h : build_filters env lib cu args now = some f) :
    f.timePublishedGt = none := by
  unfold build_filters at h
  by_cases hg : pyTruthy args.group = true
  · simp only [hg, if_true] at h
    split at h
    · simp at h
    · have hx := Option.some.inj h
      subst hx
      by_cases h1 : pyTruthy args.author = true <;> by_cases h2 : lib = true <;>
        by_cases h3 : pyTruthy args.categories = true <;>
        simp [h1, h2, h3, ha]
  · rw [if_neg (by simp [hg])] at h
    have hx := Option.some.inj h
    subst hx
    by_cases h1 : pyTruthy args.author = true <;> by_cases h2 : lib = true <;>
      by_cases h3 : pyTruthy args.categories = true <;>
      simp [h1, h2, h3, ha]

theorem matches_filters_idIn (f : Filters) (p : Paper) (ids : List String)
    (h : matches_filters f p = true) (hid : f.idIn = some ids) :
    p.pid ∈ ids := by
  unfold matches_filters at h
  rw [hid] at h
  simp only [Bool.and_eq_true] at h
  have := h.1.1.2
  simpa using this

theorem matches_filters_time (f : Filters) (p : Paper) (t : Int)
    (h : matches_filters f p = true) (ht : f.timePublishedGt = some t) :
    t < p.time_published := by
  unfold matches_filters at h
  rw [ht] at h
  simp only [Bool.and_eq_true] at h
  have := h.1.2
  simpa using this

theorem mem_papers_of_core (env : Env) (lib : Bool) (cu : Option String) (args : QueryArgs)
    (now : Int) (psz : Int) (r : PapersResponse) (f : Filters) (p : EnrichedPaper)
    (h : get_papers_core env lib cu args now psz = some r)
    (hf : build_filters env lib cu args now = some f)
    (hp : p ∈ r.papers) :
    p.paper ∈ env.papers ∧ matches_filters f p.paper = true := by
  obtain ⟨f2, hf2, hpap, -⟩ := get_papers_core_spec env lib cu args now psz r h
  rw [hf] at hf2
  have hff : f = f2 := Option.some.inj hf2
  subst hff
  rw [hpap] at hp
  have hmem := (mem_include_stats env _ none cu p hp).1
  have hmem2 : p.paper ∈ (env.papers.filter (fun q => matches_filters f q)) :=
    (List.drop_subset _ _) ((List.take_subset _ _) hmem)
  have := List.mem_filter.mp hmem2
  exact ⟨this.1, this.2⟩

/-- C1 (code divergence): evaluating `get_papers` at the spec's own
example — request sort=bookmarks, age=all, page 1 over a store holding
papers with star counts [5, 1, 3] — returns the papers still in store
order [5, 1, 3] with count 3, not in descending star order [5, 3, 1]:
the `sort_papers` call at paper_query_utils.py line 146 is commented out
and the aggregation pipeline has no sort stage. -/
theorem c1_sort_disabled :
    get_papers envStars false none argsBookmarks 0 20 = some respStars ∧
    respStars.papers.map (fun p => p.paper.total_bookmarks) = [5, 1, 3] ∧
    respStars.papers.map (fun p => p.paper.total_bookmarks) ≠ [5, 3, 1] := by
  refine ⟨by decide, by decide, by decide⟩

/-- C2: whenever `get_papers` returns a page, the count field is -1 for
every page number greater than 1, and on page 1 it equals the number of
papers matching the compiled filter ignoring pagination (the same filter
as the page slice, not the paginated slice). -/
theorem c2_count_semantics (env : Env) (lib : Bool) (cu : Option String) (args : QueryArgs)
    (now : Int) (r : PapersResponse)
    (h : get_papers env lib cu args now 20 = some r) :
    (1 < args.page_num → r.count = -1) ∧
    (args.page_num = 1 → ∃ f, build_filters env lib cu args now = some f ∧
      r.count = ((env.papers.filter (fun p => matches_filters f p)).length : Int)) := by
  have h2 := get_papers_eq_core env lib cu args now 20 r h
  obtain ⟨f, hf, -, hcount⟩ := get_papers_core_spec env lib cu args now 20 r h2
  constructor
  · intro hp
    rcases hcount with ⟨h1, -⟩ | ⟨-, hneg⟩
    · omega
    · exact hneg
  · intro hp
    rcases hcount with ⟨-, hc⟩ | ⟨h1, -⟩
    · exact ⟨f, hf, hc⟩
    · exact absurd hp h1

theorem c2_count_semantics_witness :
    (1 < argsBookmarks.page_num → respStars.count = -1) ∧
    (argsBookmarks.page_num = 1 → ∃ f, build_filters envStars false none argsBookmarks 0 = some f ∧
      respStars.count = ((envStars.papers.filter (fun p => matches_filters f p)).length : Int)) :=
  c2_count_semantics envStars false none argsBookmarks 0 respStars (by decide)

/-- C3: when a listing request carries both library=true and a (truthy)
group id that resolves to group g, the compiled id filter is g's paper set
(the group assignment overwrites the library assignment of the `_id` key),
so every returned paper's id belongs to g; and concretely, over `envGroup`
the paper pG is returned even though it is absent from the requesting
user's library. -/
theorem c3_group_overrides_library :
    (∀ (env : Env) (cu : Option String) (args : QueryArgs) (now : Int) (f : Filters) (g : GroupRec),
      pyTruthy args.group = true →
      env.groups (args.group.getD "") = some g →
      build_filters env true cu args now = some f →
      f.idIn = some g.papers) ∧
    (∀ (env : Env) (cu : Option String) (args : QueryArgs) (now : Int) (r : PapersResponse) (g : GroupRec),
      pyTruthy args.group = true →
      env.groups (args.group.getD "") = some g →
      get_papers env true cu args now 20 = some r →
      ∀ p ∈ r.papers, p.paper.pid ∈ g.papers) ∧
    ((get_papers envGroup true (some "u") argsGroup 0 20).map
        (fun r => r.papers.map (fun p => p.paper.pid)) = some ["pG"] ∧
      "pG" ∉ envGroup.userLibrary (some "u")) := by
  refine ⟨?_, ?_, by decide, by decide⟩
  · intro env cu args now f g hg henv h
    exact build_filters_group env true cu args now f g hg henv h
  · intro env cu args now r g hg henv h p hp
    have h2 := get_papers_eq_core env true cu args now 20 r h
    have hf := get_papers_core_spec env true cu args now 20 r h2
    obtain ⟨f, hbf, -, -⟩ := hf
    have hm := mem_papers_of_core env true cu args now 20 r f p h2 hbf hp
    have hid := build_filters_group env true cu args now f g hg henv hbf
    exact matches_filters_idIn f p.paper g.papers hm.2 hid

theorem c3_group_overrides_library_witness :
    fGroup.idIn = some ["pG"] ∧ pGEnriched.paper.pid ∈ (["pG"] : List String) :=
  ⟨c3_group_overrides_library.1 envGroup (some "u") argsGroup 0 fGroup { papers := ["pG"] }
      (by decide) (by decide) (by decide),
   c3_group_overrides_library.2.1 envGroup (some "u") argsGroup 0 respGroup { papers := ["pG"] }
      (by decide) (by decide) (by decide) pGEnriched (by decide)⟩

/-- C4: for every listing request with a valid age other than "all" whose
window (per AGE_DICT: day 1, 3days 3, week 7, month 30, year 365) is d,
every returned paper's publication timestamp is at least now - d (the code
filter is strictly greater, which implies the claim's ≥); and age = "all"
compiles to no time filter at all. -/
theorem c4_age_window :
    (∀ (env : Env) (lib : Bool) (cu : Option String) (args : QueryArgs)
        (now : Int) (r : PapersResponse) (d : Int),
      args.age ≠ "all" →
      AGE_DICT.lookup args.age = some d →
      get_papers env lib cu args now 20 = some r →
      ∀ p ∈ r.papers, now - d ≤ p.paper.time_published) ∧
    (∀ (env : Env) (lib : Bool) (cu : Option String) (args : QueryArgs)
        (now : Int) (f : Filters),
      args.age = "all" →
      build_filters env lib cu args now = some f →
      f.timePublishedGt = none) := by
  constructor
  · intro env lib cu args now r d ha hd h p hp
    have h2 := get_papers_eq_core env lib cu args now 20 r h
    obtain ⟨f, hbf, -, -⟩ := get_papers_core_spec env lib cu args now 20 r h2
    have hm := mem_papers_of_core env lib cu args now 20 r f p h2 hbf hp
    have ht := build_filters_time env lib cu args now f ha hbf
    rw [hd] at ht
    have := matches_filters_time f p.paper (now - d) hm.2 ht
    omega
  · intro env lib cu args now f ha h
    exact build_filters_time_all env lib cu args now f ha h

theorem c4_age_window_witness :
    ((10 : Int) - 7 ≤ pTEnriched.paper.time_published) ∧ fAll.timePublishedGt = none :=
  ⟨c4_age_window.1 envAge false none argsAge 10 respAge 7 (by decide) (by decide) (by decide)
      pTEnriched (by decide),
   c4_age_window.2 envStars false none argsBookmarks 0 fAll (by decide) (by decide)⟩

/-- C7: creating a non-general comment (no isGeneral key in the body)
whose position or highlighted text is missing fails with a 4xx error
(401, or 400 if the request is already invalid); and every stored comment
satisfies the invariant: a general comment carries neither position nor
highlighted text, a non-general comment carries both. -/
theorem c7_general_comment_invariant :
    (∀ (env : SqlEnv) (jwt : Option String) (user : SqlUser) (pid : String)
        (req : NewCommentRequest),
      req.isGeneral = none →
      (req.position = none ∨ req.highlighted_text = none) →
      ∃ e, new_comment_post env jwt user pid req = Except.error e ∧ 400 ≤ e ∧ e < 500) ∧
    (∀ (env : SqlEnv) (jwt : Option String) (user : SqlUser) (pid : String)
        (req : NewCommentRequest) (c : StoredComment),
      new_comment_post env jwt user pid req = Except.ok c →
      (c.is_general = true → c.position = none ∧ c.highlighted_text = none) ∧
      (c.is_general = false → c.position.isSome = true ∧ c.highlighted_text.isSome = true)) := by
  constructor
  · intro env jwt user pid req hg hmiss
    unfold new_comment_post
    cases hv : req.visibility with
    | none => exact ⟨400, rfl, by omega, by omega⟩
    | some vis =>
      have hcond : (!req.isGeneral.isSome &&
          (req.position.isNone || req.highlighted_text.isNone)) = true := by
        rw [hg]
        rcases hmiss with hm | hm <;> simp [hm]
      by_cases hval : visibility_valid vis = true
      · refine ⟨401, ?_, by omega, by omega⟩
        simp only [hval, hcond, if_true, ite_true]
      · refine ⟨400, ?_, by omega, by omega⟩
        simp [hval]
  · intro env jwt user pid req c h
    unfold new_comment_post at h
    split at h
    · simp at h
    · split at h
      · split at h
        · simp at h
        · rename_i hmiss
          split at h
          · simp at h
          · split at h
            · simp at h
            · split at h
              · split at h
                · have hc := Except.ok.inj h
                  subst hc
                  constructor
                  · intro hgen
                    simp only at hgen
                    simp [hgen]
                  · intro hgen
                    simp only at hgen
                    rw [hgen] at hmiss
                    simp only [Bool.not_false, Bool.true_and] at hmiss
                    constructor
                    · simp only [hgen, if_false, ite_false]
                      cases hp : req.position with
                      | none => rw [hp] at hmiss; simp at hmiss
                      | some v => simp [hp]
                    · simp only [hgen, if_false, ite_false]
                      cases hp : req.highlighted_text with
                      | none => rw [hp] at hmiss; simp at hmiss
                      | some v => simp [hp]
                · simp at h
              · simp at h
      · simp at h

theorem c7_general_comment_invariant_witness :
    (∃ e, new_comment_post sqlEnvAll (some "j") userU "pp" reqNonGeneralMissing = Except.error e ∧
      400 ≤ e ∧ e < 500) ∧
    ((storedGeneralFalse.is_general = true →
        storedGeneralFalse.position = none ∧ storedGeneralFalse.highlighted_text = none) ∧
     (storedGeneralFalse.is_general = false →
        storedGeneralFalse.position.isSome = true ∧ storedGeneralFalse.highlighted_text.isSome = true)) :=
  ⟨c7_general_comment_invariant.1 sqlEnvAll (some "j") userU "pp" reqNonGeneralMissing rfl
      (Or.inl rfl),
   c7_general_comment_invariant.2 sqlEnvAll (some "j") userU "pp" reqGeneralFalse storedGeneralFalse
      rfl⟩

/-- C8: whether a new comment is general is decided by the mere presence
of the isGeneral key: a request with isGeneral explicitly false that is
accepted is stored with is_general true and nulled position and
highlighted text. -/
theorem c8_isGeneral_presence (env : SqlEnv) (jwt : Option String) (user : SqlUser)
    (pid : String) (req : NewCommentRequest) (c : StoredComment)
    (hg : req.isGeneral = some false)
    (h : new_comment_post env jwt user pid req = Except.ok c) :
    c.is_general = true ∧ c.position = none ∧ c.highlighted_text = none := by
  have hs : req.isGeneral.isSome = true := by rw [hg]; rfl
  unfold new_comment_post at h
  split at h
  · simp at h
  · split at h
    · split at h
      · simp at h
      · split at h
        · simp at h
        · split at h
          · simp at h
          · split at h
            · split at h
              · have hc := Except.ok.inj h
                subst hc
                simp [hs]
              · simp at h
            · simp at h
    · simp at h

theorem c8_isGeneral_presence_witness :
    storedGeneralFalse.is_general = true ∧ storedGeneralFalse.position = none ∧
      storedGeneralFalse.highlighted_text = none :=
  c8_isGeneral_presence sqlEnvAll (some "j") userU "pp" reqGeneralFalse storedGeneralFalse rfl
    rfl

/-- C9: listing a paper's comments with no group argument returns, for an
anonymous caller, exactly the comments on that paper whose visibility type
is in the public set (public/anonymous), and for an authenticated caller
exactly those that are public-typed or owned by the caller; consequently a
private comment is returned only to its owner. -/
theorem c9_no_group_visibility (env : SqlEnv) (comments : List SqlComment) (pid : String)
    (user : Option SqlUser) (r : List SqlComment)
    (h : comments_get env comments pid none user = Except.ok r) :
    (user = none → ∀ c, c ∈ r ↔
      (c ∈ comments ∧ c.paper_id = pid ∧ c.shared_with ∈ PUBLIC_TYPES)) ∧
    (∀ u, user = some u → ∀ c, c ∈ r ↔
      (c ∈ comments ∧ c.paper_id = pid ∧
        (c.shared_with ∈ PUBLIC_TYPES ∨ c.user_id = some u.uid))) ∧
    (∀ c, c ∈ r → c.shared_with = "private" → ∃ u, user = some u ∧ c.user_id = some u.uid) := by
  unfold comments_get at h
  split at h
  · split at h
    · rw [if_neg (by decide)] at h
      cases user with
      | none =>
        have hr := Except.ok.inj h
        subst hr
        refine ⟨?_, ?_, ?_⟩
        · intro _ c
          simp [List.mem_filter, and_assoc]
          tauto
        · intro u hu
          cases hu
        · intro c hc hpriv
          simp [List.mem_filter, hpriv, PUBLIC_TYPES] at hc
      | some u =>
        have hr := Except.ok.inj h
        subst hr
        refine ⟨?_, ?_, ?_⟩
        · intro hn
          cases hn
        · intro u2 hu c
          have hu2 : u = u2 := Option.some.inj hu
          subst hu2
          simp [List.mem_filter, and_assoc]
          tauto
        · intro c hc hpriv
          refine ⟨u, rfl, ?_⟩
          simp [List.mem_filter, hpriv, PUBLIC_TYPES] at hc
          tauto
    · simp at h
  · simp at h

theorem c9_no_group_visibility_witness :
    (cPrivMine ∈ resC9 ↔
      (cPrivMine ∈ commentsC9 ∧ cPrivMine.paper_id = "pp" ∧
        (cPrivMine.shared_with ∈ PUBLIC_TYPES ∨ cPrivMine.user_id = some userU.uid))) ∧
    (∃ u, (some userU : Option SqlUser) = some u ∧ cPrivMine.user_id = some u.uid) :=
  ⟨(c9_no_group_visibility sqlEnvAll commentsC9 "pp" (some userU) resC9 rfl).2.1 userU rfl cPrivMine,
   (c9_no_group_visibility sqlEnvAll commentsC9 "pp" (some userU) resC9 rfl).2.2 cPrivMine
      (by decide) rfl⟩

/-- C10: a comment whose visibility is anonymous, or whose owning user is
absent, is marshalled with empty-string username, first_name and
last_name; and the marshalled output of an anonymous comment is
independent of the owner's name fields (two owners agreeing on email but
differing arbitrarily in username/first/last name produce identical
shaped comments). -/
theorem c10_anonymous_shape_independence :
    (∀ (cu : Option String) (c : SqlComment),
      (c.shared_with = "anonymous" ∨ c.user = none) →
      (shape_comment cu c).username = "" ∧
      (shape_comment cu c).first_name = "" ∧
      (shape_comment cu c).last_name = "") ∧
    (∀ (cu : Option String) (c : SqlComment) (u1 u2 : SqlUser),
      c.shared_with = "anonymous" →
      u1.email = u2.email →
      shape_comment cu { c with user := some u1 } = shape_comment cu { c with user := some u2 }) := by
  constructor
  · intro cu c h
    rcases h with h | h
    · exact ⟨by simp [shape_comment, anonymize_user, h],
             by simp [shape_comment, anonymize_user, h],
             by simp [shape_comment, anonymize_user, h]⟩
    · refine ⟨?_, ?_, ?_⟩ <;>
        · simp only [shape_comment, anonymize_user, h]
          split <;> rfl
  · intro cu c u1 u2 ha he
    unfold shape_comment
    simp only [anonymize_user, can_edit, ha, if_true, ite_true]
    cases cu with
    | none => rfl
    | some e => simp [he]

theorem c10_anonymous_shape_independence_witness :
    ((shape_comment none cAnon).username = "" ∧
      (shape_comment none cAnon).first_name = "" ∧
      (shape_comment none cAnon).last_name = "") ∧
    shape_comment none { cAnon with user := some uNameA } =
      shape_comment none { cAnon with user := some uNameB } :=
  ⟨c10_anonymous_shape_independence.1 none cAnon (Or.inl rfl),
   c10_anonymous_shape_independence.2 none cAnon uNameA uNameB rfl rfl⟩
